import Mathlib

/-!
Shallow embedding of `src/load.py` (class `GDriveWarehouse`), the lazily
loading, cache-backed data-access layer over a Google Drive folder.

Modelling conventions:
* Time is measured in seconds as `Int`; `datetime.now()` becomes an explicit
  `now : Int` parameter and `self.cache_ttl = timedelta(minutes=m)` becomes
  `(m : Int) * 60` total seconds.  Comparison of timedeltas compares total
  durations, which the integer comparison reflects.
* The Drive gateway call `files().get(fileId, fields='id,modifiedTime')`
  is modelled by its outcome `Except Unit (Option String)`: `.error ()` is a
  raised exception, `.ok m` a response whose `modifiedTime` field is `m`
  (`none` when the field is absent, in which case the code substitutes `''`).
* `hashlib.md5(...).hexdigest()` is an abstract function `md5 : String → String`
  passed as a parameter; only equality of its outputs matters to the code.
* Parsed pandas/geopandas datasets are an abstract type `D`; `.copy()` on an
  immutable value is the identity, so cached and returned datasets are the
  same Lean value.
* The in-memory dict `self._cache` is an association list from the string
  cache key to the stored entry dict; dict indexing is `List.lookup` and
  dict assignment replaces any previous binding for the key.
-/

namespace GDriveWarehouse

/-- One entry of `self._cache`: the dict
`{'df': df.copy(), 'timestamp': datetime.now(), 'hash': file_hash, 'file_name': file_name}`
built at `src/load.py:363-368`. -/
structure CacheEntry (D : Type) where
  df : D
  timestamp : Int
  hash : String
  file_name : String
deriving DecidableEq

/-- The in-memory cache dict `self._cache`. -/
abbrev Cache (D : Type) := List (String × CacheEntry D)

/-- Dict lookup `self._cache[cache_key]` / `cache_key in self._cache`. -/
def cacheLookup {D : Type} (c : Cache D) (k : String) : Option (CacheEntry D) :=
  (c.find? (fun p => p.1 == k)).map Prod.snd

/-- Dict assignment `self._cache[cache_key] = {...}`: the new binding shadows
any previous binding for the same key. -/
def cacheStore {D : Type} (c : Cache D) (k : String) (e : CacheEntry D) : Cache D :=
  (k, e) :: c.filter (fun p => p.1 != k)

/-- `_is_cache_valid` (src/load.py:86-95): an absent entry is invalid, and a
present entry is valid iff `datetime.now() - timestamp < self.cache_ttl`.
`ttl` is the total TTL in seconds. -/
def is_cache_valid {D : Type} (ttl : Int) (now : Int) (e : Option (CacheEntry D)) : Bool :=
  match e with
  | none => false
  | some entry => now - entry.timestamp < ttl

/-- The `try:` body of `_get_file_hash` (src/load.py:99-104): the gateway
metadata call may raise; on success the hash string is
`f"{file_id}_{file_meta.get('modifiedTime', '')}"`. -/
def get_file_hash_body (md5 : String → String) (fileId : String)
    (meta : Except Unit (Option String)) : Except Unit String :=
  match meta with
  | .error e => .error e
  | .ok m => .ok (md5 (fileId ++ "_" ++ m.getD ""))

/-- `_get_file_hash` (src/load.py:97-107): the `except` clause turns any
gateway failure into the fallback hash of the file id alone, so the function
is total (it always returns a `String`, never propagating the error). -/
def get_file_hash (md5 : String → String) (fileId : String)
    (meta : Except Unit (Option String)) : String :=
  match get_file_hash_body md5 fileId meta with
  | .ok h => h
  | .error _ => md5 fileId

/-- Observable outcome of one `_read_file` call: the returned dataset, the
cache dict afterwards, whether remote content was fetched (download or
spreadsheet read), whether the freshly computed fingerprint was compared with
the stored one, and whether the result was served from the cache. -/
structure ReadOutcome (D : Type) where
  result : Option D
  cache : Cache D
  downloaded : Bool
  fingerprintCompared : Bool
  servedFromCache : Bool
deriving DecidableEq

/-- The miss path of `_read_file` (src/load.py:286-376): fetch and parse the
content (`downloadParse` is the dataset the download-and-parse step would
produce, `none` when parsing fails or raises); on success store
`{'df': ..., 'timestamp': now, 'hash': _get_file_hash(file_id), 'file_name': ...}`
under the key, on failure leave the cache untouched and return `None`. -/
def read_file_miss {D : Type} (now : Int) (freshHash : String) (fileName : String)
    (downloadParse : Option D) (cache : Cache D) (key : String)
    (fpCompared : Bool) : ReadOutcome D :=
  match downloadParse with
  | none =>
      { result := none, cache := cache, downloaded := true,
        fingerprintCompared := fpCompared, servedFromCache := false }
  | some d =>
      { result := some d,
        cache := cacheStore cache key ⟨d, now, freshHash, fileName⟩,
        downloaded := true, fingerprintCompared := fpCompared,
        servedFromCache := false }

/-- The cache-or-fetch core of `_read_file` (src/load.py:273-376) for a file
whose type passed the allow-list check.  If the key is present, the entry
passes `_is_cache_valid`, and the freshly computed `_get_file_hash` equals the
stored hash, the cached dataset is returned without any fetch; in every other
case control falls through to the download-and-parse path. -/
def read_file {D : Type} (ttl : Int) (now : Int) (md5 : String → String)
    (meta : Except Unit (Option String)) (fileId fileName : String)
    (downloadParse : Option D) (cache : Cache D) (key : String) : ReadOutcome D :=
  match cacheLookup cache key with
  | some entry =>
      if is_cache_valid ttl now (some entry) then
        if get_file_hash md5 fileId meta = entry.hash then
          { result := some entry.df, cache := cache, downloaded := false,
            fingerprintCompared := true, servedFromCache := true }
        else
          read_file_miss now (get_file_hash md5 fileId meta) fileName
            downloadParse cache key true
      else
        read_file_miss now (get_file_hash md5 fileId meta) fileName
          downloadParse cache key false
  | none =>
      read_file_miss now (get_file_hash md5 fileId meta) fileName
        downloadParse cache key false

/-- The loop of `get_cache_info` (src/load.py:672-676), accumulating the
number of entries passing `_is_cache_valid` and the total estimated size of
their datasets (`size` abstracts `df.memory_usage(deep=True).sum()` scaled to
MB). -/
def cache_scan {D : Type} (ttl : Int) (now : Int) (size : D → Nat) :
    Cache D → Nat × Nat
  | [] => (0, 0)
  | (_, e) :: rest =>
      let acc := cache_scan ttl now size rest
      if is_cache_valid ttl now (some e) then (acc.1 + 1, acc.2 + size e.df)
      else acc

/-- The dict returned by `get_cache_info` (src/load.py:678-685). -/
structure CacheInfo where
  total_entries : Nat
  valid_entries : Nat
  expired_entries : Nat
  estimated_size : Nat
  ttl_minutes : Nat
  indexed_files : Nat
deriving DecidableEq

/-- `get_cache_info` (src/load.py:667-685).  `ttlMinutes` is the configured
`cache_ttl_minutes`; `self.cache_ttl = timedelta(minutes=ttlMinutes)` has
total duration `ttlMinutes * 60` seconds but its `.seconds` attribute is only
the within-day remainder `(ttlMinutes * 60) % 86400`, which the code floor
divides by 60.  `fileIndexCount` is `len(self._file_index)` when the index
dict exists (an empty dict is falsy, like `None`, and reports 0). -/
def get_cache_info {D : Type} (ttlMinutes : Nat) (now : Int) (size : D → Nat)
    (cache : Cache D) (fileIndexCount : Option Nat) : CacheInfo :=
  let scan := cache_scan ((ttlMinutes : Int) * 60) now size cache
  { total_entries := cache.length
    valid_entries := scan.1
    expired_entries := cache.length - scan.1
    estimated_size := scan.2
    ttl_minutes := (ttlMinutes * 60) % 86400 / 60
    indexed_files := match fileIndexCount with
      | some n => n
      | none => 0 }

/-- Values appearing in a metadata record dict. -/
inductive MetaVal where
  | str (s : String)
  | bool (b : Bool)
  | optStr (o : Option String)
  | shape (rows cols : Nat)
  | strList (l : List String)
deriving DecidableEq

/-- The inputs available when `get_table` updates `self.metadata[name]` after
a successful load: the file entry's name, whether it is a native Google
Sheet, whether the parsed dataset is a `GeoDataFrame` and its `str(df.crs)`,
the dataset shape and columns, the entry's `modifiedTime`, and
`datetime.now().isoformat()`. -/
structure LoadInfo where
  fileName : String
  isGoogleSheet : Bool
  isGeo : Bool
  crsStr : String
  numRows : Nat
  numCols : Nat
  columns : List String
  modifiedTime : Option String
  loadedAt : String

/-- The `'file_type'` label: `'Google Sheet'` for a native spreadsheet, else
`file_info['name'].split('.')[-1].upper()`. -/
def file_type_label (isGoogleSheet : Bool) (fileName : String) : String :=
  if isGoogleSheet then "Google Sheet"
  else ((fileName.splitOn ".").getLastD fileName).toUpper

/-- The metadata dict literal of the FIRST `get_table` definition
(src/load.py:432-441), which stores the geospatial flag and the CRS. -/
def metadata_record_first (i : LoadInfo) : List (String × MetaVal) :=
  [("file_name", .str i.fileName),
   ("file_type", .str (file_type_label i.isGoogleSheet i.fileName)),
   ("is_geospatial", .bool i.isGeo),
   ("crs", .optStr (if i.isGeo then some i.crsStr else none)),
   ("shape", .shape i.numRows i.numCols),
   ("columns", .strList i.columns),
   ("modified_time", .optStr i.modifiedTime),
   ("loaded_at", .str i.loadedAt)]

/-- The metadata dict literal of the SECOND `get_table` definition
(src/load.py:574-581), which stores neither the geospatial flag nor the CRS. -/
def metadata_record_second (i : LoadInfo) : List (String × MetaVal) :=
  [("file_name", .str i.fileName),
   ("file_type", .str (file_type_label i.isGoogleSheet i.fileName)),
   ("shape", .shape i.numRows i.numCols),
   ("columns", .strList i.columns),
   ("modified_time", .optStr i.modifiedTime),
   ("loaded_at", .str i.loadedAt)]

/-- Python class-body name binding: successive `def`s with the same name are
executed in order and each rebinds the attribute, so the LAST definition for
a name wins. -/
def class_attribute {α : Type} (body : List (String × α)) (attr : String) : Option α :=
  body.foldl (fun acc p => if p.1 = attr then some p.2 else acc) none

/-- The two textual `def get_table` bindings of the class body, in source
order (src/load.py:391 and src/load.py:535), restricted to their
metadata-record effect. -/
def get_table_defs : List (String × (LoadInfo → List (String × MetaVal))) :=
  [("get_table", metadata_record_first), ("get_table", metadata_record_second)]

/-- The metadata record written by the EFFECTIVE `get_table` (the binding the
class ends up with after executing its body). -/
def metadata_record_effective : LoadInfo → List (String × MetaVal) :=
  match class_attribute get_table_defs "get_table" with
  | some f => f
  | none => fun _ => []

/-- A parse attempt result for one (encoding, separator) pair: `pd.read_csv`
either raises (`none`) or yields a frame; only the column count
(`df_test.shape[1]`) is inspected by the probing loop, `tag` distinguishes
distinct frames. -/
structure CsvDf where
  ncols : Nat
  tag : Nat
deriving DecidableEq

/-- `seps = [";", ",", "|"]` (src/load.py:298). -/
def csv_seps : List String := [";", ",", "|"]

/-- `encodings = ["utf-8", "latin-1"]` (src/load.py:299). -/
def csv_encodings : List String := ["utf-8", "latin-1"]

/-- The inner `for sep in seps` loop (src/load.py:302-312): a raising parse
is skipped (`except: pass`), a parse with more than one column is accepted
and breaks, otherwise the next separator is tried. -/
def try_seps (parse : String → String → Option CsvDf) (enc : String) :
    List String → Option CsvDf
  | [] => none
  | sep :: rest =>
      match parse enc sep with
      | some dfTest =>
          if dfTest.ncols > 1 then some dfTest else try_seps parse enc rest
      | none => try_seps parse enc rest

/-- The outer `for enc in encodings` loop (src/load.py:301-314): once `df` is
set by the inner loop, the outer loop also breaks. -/
def try_encodings (parse : String → String → Option CsvDf) :
    List String → Option CsvDf
  | [] => none
  | enc :: rest =>
      match try_seps parse enc csv_seps with
      | some df => some df
      | none => try_encodings parse rest

/-- The whole csv probing block (src/load.py:296-314): `df` stays `None` when
no combination is accepted. -/
def read_csv (parse : String → String → Option CsvDf) : Option CsvDf :=
  try_encodings parse csv_encodings

/-- Acceptance of one (encoding, separator) pair: the parse must succeed and
produce strictly more than one column. -/
def csv_accept (parse : String → String → Option CsvDf) (p : String × String) :
    Option CsvDf :=
  match parse p.1 p.2 with
  | some df => if df.ncols > 1 then some df else none
  | none => none

/-- Parsed JSON values as produced by `json.load`. -/
inductive JVal where
  | str (s : String)
  | num (n : Int)
  | bool (b : Bool)
  | null
  | arr (xs : List JVal)
  | obj (fields : List (String × JVal))

/-- A geopandas `GeoDataFrame` as returned by `gpd.read_file`: it always
carries a `.crs` attribute (rendered by `str(df.crs)`). -/
structure GeoDataFrame where
  rows : List JVal
  crs : String

/-- Which plain-pandas branch of the json dispatcher produced the frame:
`rows src fromKey` is `pd.json_normalize(src)` (with `fromKey` the dict key
the list was taken from, `none` for a top-level list), `single v` is
`pd.DataFrame([v])`. -/
inductive PlainDf where
  | rows (src : List JVal) (fromKey : Option String)
  | single (v : JVal)

/-- Result of dispatching a parsed JSON value. -/
inductive ParsedDf where
  | geo (g : GeoDataFrame)
  | plain (p : PlainDf)

/-- Python `data.get(k)` on a parsed JSON object (keys are unique after
`json.load`). -/
def dict_get (fields : List (String × JVal)) (k : String) : Option JVal :=
  ((fields.find? (fun p => p.1 == k)).map Prod.snd)

/-- `data.get('type') == 'FeatureCollection'` (src/load.py:324): Python `==`
between the looked-up value and the string literal, true exactly when the
value is that string. -/
def is_feature_collection (fields : List (String × JVal)) : Bool :=
  match dict_get fields "type" with
  | some (.str s) => s == "FeatureCollection"
  | _ => false

/-- `any(isinstance(v, list) for v in data.values())` (src/load.py:335). -/
def has_list_value (fields : List (String × JVal)) : Bool :=
  fields.any (fun p => match p.2 with | .arr _ => true | _ => false)

/-- The `for key, value in data.items(): ... break / else:` search
(src/load.py:337-341): the first value that is a list AND non-empty. -/
def find_main_list : List (String × JVal) → Option (String × List JVal)
  | [] => none
  | (k, v) :: rest =>
      match v with
      | .arr xs => if xs.length > 0 then some (k, xs) else find_main_list rest
      | _ => find_main_list rest

/-- The json branch of `_read_file` (src/load.py:319-347): a dict whose
`'type'` is `'FeatureCollection'` goes to `gpd.read_file` (`geoRead`); a list
is normalized to rows; a dict is searched for a main list; anything else (and
a dict with no non-empty list value) becomes a single-row frame. -/
def read_json (geoRead : JVal → GeoDataFrame) (data : JVal) : ParsedDf :=
  match data with
  | .obj fields =>
      if is_feature_collection fields then
        .geo (geoRead (.obj fields))
      else
        if has_list_value fields then
          match find_main_list fields with
          | some (k, xs) => .plain (.rows xs (some k))
          | none => .plain (.single (.obj fields))
        else .plain (.single (.obj fields))
  | .arr xs => .plain (.rows xs none)
  | other => .plain (.single other)

/-- Modelled from the spec claim's words (not from the source): "the
dispatcher scans the mapping's values in insertion order and flattens the
first value that is a sequence into the rows of the resulting dataset; if no
value of the mapping is a sequence, the whole mapping becomes a single-row
dataset".  Used only to compare against the source behaviour. -/
def find_first_list_spec : List (String × JVal) → Option (String × List JVal)
  | [] => none
  | (k, v) :: rest =>
      match v with
      | .arr xs => some (k, xs)
      | _ => find_first_list_spec rest

/-- Modelled from the spec claim's words: the dict branch result the claim
describes (first sequence value flattened, empty or not). -/
def json_dict_rows_spec (fields : List (String × JVal)) : PlainDf :=
  match find_first_list_spec fields with
  | some (k, xs) => .rows xs (some k)
  | none => .single (.obj fields)

/-- A Python sheet selector: `sheet_name` is an `int` index or a `str`
title. -/
inductive PySel where
  | int (n : Int)
  | str (s : String)
deriving DecidableEq

/-- Python truthiness of a selector: `0` and `""` are falsy. -/
def pyTruthy : PySel → Bool
  | .int n => n != 0
  | .str s => s != ""

/-- The f-string rendering of a selector. -/
def selFString : PySel → String
  | .int n => toString n
  | .str s => s

/-- The cache key `f"{file_id}_{sheet_name if sheet_name else self.sheet_name}"`
(src/load.py:274, also 421 and 565): the REQUESTED selector is used only when
truthy (a `None`, `0`, or `""` argument falls back to the instance-wide
`self.sheet_name`). -/
def cache_key (defaultSel : PySel) (fileId : String) (req : Option PySel) : String :=
  fileId ++ "_" ++ selFString (match req with
    | some s => if pyTruthy s then s else defaultSel
    | none => defaultSel)

/-- The selector actually used for parsing:
`sheet_name if sheet_name is not None else self.sheet_name`
(src/load.py:204 and 294) — an `is not None` test, not truthiness. -/
def effective_parse_sel (defaultSel : PySel) (req : Option PySel) : PySel :=
  match req with
  | some s => s
  | none => defaultSel

/-- A concrete successful geospatial load, for exercising the metadata
bookkeeping. -/
def geoLoadEx : LoadInfo :=
  ⟨"mapa.geojson", false, true, "EPSG:4326", 3, 2, ["nome", "geometry"],
   some "2024-01-05T00:00:00Z", "2024-02-02T12:00:00"⟩

/-- The coordinate reference system a dispatched dataset exposes: geographic
results carry `str(df.crs)`, plain pandas frames have none. -/
def parsed_crs : ParsedDf → Option String
  | .geo g => some g.crs
  | .plain _ => none

/-- A concrete parsed JSON mapping whose first list value is empty and whose
second list value is non-empty. -/
def jsonDictEx : List (String × JVal) :=
  [("a", JVal.arr []), ("b", JVal.arr [JVal.num 1])]

/-! ### Helper lemmas -/

theorem cacheLookup_store_self {D : Type} (c : Cache D) (k : String) (e : CacheEntry D) :
    cacheLookup (cacheStore c k e) k = some e := by
  simp [cacheLookup, cacheStore, List.find?]

theorem cache_scan_count {D : Type} (ttl now : Int) (size : D → Nat)
    (c : Cache D) :
    (cache_scan ttl now size c).1
      = c.countP (fun p => is_cache_valid ttl now (some p.2)) := by
  induction c with
  | nil => rfl
  | cons p rest ih =>
      rcases p with ⟨k, e⟩
      by_cases h : is_cache_valid ttl now (some e) <;>
        simp [cache_scan, List.countP_cons, h, ih]

theorem find_main_list_none_of_no_list (fields : List (String × JVal))
    (h : has_list_value fields = false) : find_main_list fields = none := by
  induction fields with
  | nil => rfl
  | cons p rest ih =>
      rcases p with ⟨k, v⟩
      rw [has_list_value, List.any_cons, Bool.or_eq_false_iff] at h
      have h2 : find_main_list rest = none := ih h.2
      cases v <;> simp [find_main_list, h2]
      exact absurd h.1 (by simp)

theorem find_main_list_eq_findSome (fields : List (String × JVal)) :
    find_main_list fields
      = fields.findSome? (fun p =>
          match p.2 with
          | .arr xs => if xs.length > 0 then some (p.1, xs) else none
          | _ => none) := by
  induction fields with
  | nil => rfl
  | cons p rest ih =>
      rcases p with ⟨k, v⟩
      cases v <;> simp [find_main_list, List.findSome?, ih]
      split <;> simp [ih]

/-! ### Claim theorems -/

/-- C1: a `_read_file` lookup is a hit iff an entry exists under the key, its
age is strictly below the TTL, and the freshly computed fingerprint equals the
stored one; a hit returns the cached dataset without fetching and leaves the
cache unchanged; every other case fetches and, when download-and-parse yields
a dataset, overwrites the entry under the key with the new dataset and the
freshly computed fingerprint. -/
theorem read_file_cache_contract {D : Type} (ttl now : Int) (md5 : String → String)
    (meta : Except Unit (Option String)) (fileId fileName : String)
    (downloadParse : Option D) (cache : Cache D) (key : String) :
    ((read_file ttl now md5 meta fileId fileName downloadParse cache key).servedFromCache = true
      ↔ ∃ e, cacheLookup cache key = some e ∧ now - e.timestamp < ttl
          ∧ get_file_hash md5 fileId meta = e.hash)
    ∧ ((read_file ttl now md5 meta fileId fileName downloadParse cache key).servedFromCache = true →
        (read_file ttl now md5 meta fileId fileName downloadParse cache key).downloaded = false
        ∧ (read_file ttl now md5 meta fileId fileName downloadParse cache key).cache = cache
        ∧ ∃ e, cacheLookup cache key = some e
            ∧ (read_file ttl now md5 meta fileId fileName downloadParse cache key).result = some e.df)
    ∧ ((read_file ttl now md5 meta fileId fileName downloadParse cache key).servedFromCache = false →
        (read_file ttl now md5 meta fileId fileName downloadParse cache key).downloaded = true
        ∧ ∀ d, downloadParse = some d →
            (read_file ttl now md5 meta fileId fileName downloadParse cache key).result = some d
            ∧ cacheLookup (read_file ttl now md5 meta fileId fileName downloadParse cache key).cache key
              = some ⟨d, now, get_file_hash md5 fileId meta, fileName⟩) := by
  rcases hl : cacheLookup cache key with _ | e
  · rcases hd : downloadParse with _ | d <;>
      simp [read_file, hl, read_file_miss, hd, cacheLookup_store_self]
  · by_cases hv : now - e.timestamp < ttl
    · by_cases hh : get_file_hash md5 fileId meta = e.hash
      · have hred : read_file ttl now md5 meta fileId fileName downloadParse cache key
            = { result := some e.df, cache := cache, downloaded := false,
                fingerprintCompared := true, servedFromCache := true } := by
          simp [read_file, hl, is_cache_valid, hv, hh]
        rw [hred]
        exact ⟨⟨fun _ => ⟨e, rfl, hv, hh⟩, fun _ => rfl⟩,
          fun _ => ⟨rfl, rfl, e, rfl, rfl⟩,
          fun hfalse => Bool.noConfusion hfalse⟩
      · rcases hd : downloadParse with _ | d <;>
          simp [read_file, hl, is_cache_valid, hv, hh, read_file_miss, hd,
            cacheLookup_store_self]
    · rcases hd : downloadParse with _ | d <;>
        simp [read_file, hl, is_cache_valid, hv, read_file_miss, hd,
          cacheLookup_store_self]

/-- Witness for C1: a concrete second read within the TTL with an unchanged
fingerprint is served from the cache without fetching. -/
theorem read_file_cache_contract_witness :
    (read_file (D := Nat) 60 10 (fun s => s) (Except.ok (some "T")) "f" "f.csv"
        (some 7) [("f_0", ⟨5, 0, "f_T", "f.csv"⟩)] "f_0").servedFromCache = true
    ∧ (read_file (D := Nat) 60 10 (fun s => s) (Except.ok (some "T")) "f" "f.csv"
        (some 7) [("f_0", ⟨5, 0, "f_T", "f.csv"⟩)] "f_0").downloaded = false := by
  have h := read_file_cache_contract (D := Nat) 60 10 (fun s => s)
    (Except.ok (some "T")) "f" "f.csv" (some 7) [("f_0", ⟨5, 0, "f_T", "f.csv"⟩)] "f_0"
  have hs := h.1.mpr ⟨⟨5, 0, "f_T", "f.csv"⟩, by decide, by decide, by decide⟩
  exact ⟨hs, (h.2.1 hs).1⟩

/-- C2 counterexample: a concrete entry whose TTL window has elapsed
(`now - timestamp = 10 ≥ 5 = ttl`) and whose fingerprint is unchanged (the
fresh hash equals the stored `"h"`); the lookup performs NO fingerprint
comparison, is not served from the cache, and re-fetches — refuting the claim
that revalidation still occurs and the entry is served as a hit. -/
theorem read_file_expired_cex :
    (read_file (D := Nat) 5 10 (fun _ => "h") (Except.ok (some "T")) "f" "f.csv"
        (some 7) [("f_0", ⟨42, 0, "h", "f.csv"⟩)] "f_0").fingerprintCompared = false
    ∧ (read_file (D := Nat) 5 10 (fun _ => "h") (Except.ok (some "T")) "f" "f.csv"
        (some 7) [("f_0", ⟨42, 0, "h", "f.csv"⟩)] "f_0").servedFromCache = false
    ∧ (read_file (D := Nat) 5 10 (fun _ => "h") (Except.ok (some "T")) "f" "f.csv"
        (some 7) [("f_0", ⟨42, 0, "h", "f.csv"⟩)] "f_0").downloaded = true
    ∧ get_file_hash (fun _ => "h") "f" (Except.ok (some "T")) = "h"
    ∧ ¬((10 : Int) - 0 < 5) := by
  refine ⟨rfl, rfl, rfl, rfl, by decide⟩

/-- C2 amended: once the TTL window has elapsed, `_read_file` skips the
fingerprint comparison entirely and treats the entry as a miss (re-fetching),
even when the fresh fingerprint equals the stored one; the comparison happens
only while the TTL has not elapsed. -/
theorem read_file_expired_skips_revalidation {D : Type} (ttl now : Int)
    (md5 : String → String) (meta : Except Unit (Option String))
    (fileId fileName : String) (downloadParse : Option D) (cache : Cache D)
    (key : String) (e : CacheEntry D)
    (hl : cacheLookup cache key = some e)
    (hexp : ¬(now - e.timestamp < ttl)) :
    (read_file ttl now md5 meta fileId fileName downloadParse cache key).fingerprintCompared = false
    ∧ (read_file ttl now md5 meta fileId fileName downloadParse cache key).servedFromCache = false
    ∧ (read_file ttl now md5 meta fileId fileName downloadParse cache key).downloaded = true := by
  rcases hd : downloadParse with _ | d <;>
    simp [read_file, hl, is_cache_valid, hexp, read_file_miss, hd]

/-- Witness for the amended C2 at a concrete expired entry. -/
theorem read_file_expired_skips_revalidation_witness :
    (read_file (D := Nat) 5 60 (fun _ => "h") (Except.ok (some "T")) "g" "g.csv"
        (some 9) [("g_0", ⟨11, 0, "h", "g.csv"⟩)] "g_0").fingerprintCompared = false := by
  exact (read_file_expired_skips_revalidation (D := Nat) 5 60 (fun _ => "h")
    (Except.ok (some "T")) "g" "g.csv" (some 9) [("g_0", ⟨11, 0, "h", "g.csv"⟩)]
    "g_0" ⟨11, 0, "h", "g.csv"⟩ (by decide) (by decide)).1

/-- C9: `_get_file_hash` recovers from a gateway metadata failure by hashing
the file id alone, so it always returns a fingerprint string to its caller;
on success the fingerprint hashes `f"{file_id}_{modifiedTime}"`. -/
theorem get_file_hash_never_fails (md5 : String → String) (fileId : String)
    (meta : Except Unit (Option String)) :
    (meta = .error () → get_file_hash md5 fileId meta = md5 fileId)
    ∧ ∀ m, meta = .ok m →
        get_file_hash md5 fileId meta = md5 (fileId ++ "_" ++ m.getD "") := by
  constructor
  · rintro rfl
    rfl
  · rintro m rfl
    rfl

/-- Witness for C9: a failing gateway lookup yields the id-only fingerprint. -/
theorem get_file_hash_never_fails_witness :
    get_file_hash (fun s => s) "abc123" (Except.error ()) = "abc123" :=
  (get_file_hash_never_fails (fun s => s) "abc123" (Except.error ())).1 rfl

/-- C10: `get_cache_info` reports `ttl_minutes` as the configured
`cache_ttl_minutes` modulo 1440, because only the within-day `.seconds` of the
TTL timedelta are floor-divided by 60; every positive multiple of 1440 is
reported as 0. -/
theorem get_cache_info_ttl_minutes_mod (D : Type) (m : Nat) (now : Int)
    (size : D → Nat) (cache : Cache D) (fidx : Option Nat) :
    (get_cache_info m now size cache fidx).ttl_minutes = m % 1440
    ∧ ∀ k : Nat, (get_cache_info (1440 * (k + 1)) now size cache fidx).ttl_minutes = 0 := by
  constructor
  · show (m * 60) % 86400 / 60 = m % 1440
    omega
  · intro k
    show (1440 * (k + 1) * 60) % 86400 / 60 = 0
    omega

/-- C3 counterexample: a concrete entry that is inside its TTL window but
whose stored fingerprint `"stored"` differs from the fresh fingerprint
`"fresh"`.  `get_cache_info` counts it as valid (1 valid entry), yet the
lookup's combined check rejects it: the fingerprint comparison runs and the
entry is not served from the cache — so "valid" in `get_cache_info` is NOT
the combined TTL-plus-fingerprint check used by lookup. -/
theorem get_cache_info_fingerprint_cex :
    (get_cache_info (D := Nat) 1 1 (fun _ => 0)
        [("f_0", ⟨42, 0, "stored", "x.csv"⟩)] (some 1)).valid_entries = 1
    ∧ (read_file (D := Nat) 60 1 (fun _ => "fresh") (Except.ok (some "T")) "f" "x.csv"
        (some 42) [("f_0", ⟨42, 0, "stored", "x.csv"⟩)] "f_0").servedFromCache = false
    ∧ (read_file (D := Nat) 60 1 (fun _ => "fresh") (Except.ok (some "T")) "f" "x.csv"
        (some 42) [("f_0", ⟨42, 0, "stored", "x.csv"⟩)] "f_0").fingerprintCompared = true := by
  exact ⟨rfl, rfl, rfl⟩

/-- C3 amended: `get_cache_info` counts an entry as valid exactly when the
TTL-only check `_is_cache_valid` accepts it — the fingerprint is never
consulted — and reports expired entries as the total count minus the valid
count. -/
theorem get_cache_info_ttl_only_check {D : Type} (m : Nat) (now : Int)
    (size : D → Nat) (cache : Cache D) (fidx : Option Nat) :
    (get_cache_info m now size cache fidx).valid_entries
      = cache.countP (fun p => is_cache_valid ((m : Int) * 60) now (some p.2))
    ∧ (get_cache_info m now size cache fidx).expired_entries
      = (get_cache_info m now size cache fidx).total_entries
        - (get_cache_info m now size cache fidx).valid_entries := by
  exact ⟨cache_scan_count ((m : Int) * 60) now size cache, rfl⟩

/-- C4 counterexample: after a successful geospatial load, the effective
`get_table` metadata record has NO `'is_geospatial'` and NO `'crs'` key; only
the shadowed first definition would have stored them. -/
theorem metadata_effective_missing_geo_cex :
    (metadata_record_effective geoLoadEx).lookup "is_geospatial" = none
    ∧ (metadata_record_effective geoLoadEx).lookup "crs" = none
    ∧ (metadata_record_first geoLoadEx).lookup "is_geospatial" = some (MetaVal.bool true)
    ∧ (metadata_record_first geoLoadEx).lookup "crs"
        = some (MetaVal.optStr (some "EPSG:4326")) := by
  exact ⟨rfl, rfl, rfl, rfl⟩

/-- C4 amended: the metadata record stored by the effective `get_table` (the
second definition, which shadows the first) contains exactly the source
display name, resolved type label, shape, column names, remote modified-time
and local load timestamp — and never the geospatial flag or the CRS. -/
theorem metadata_effective_fields (i : LoadInfo) :
    metadata_record_effective i = metadata_record_second i
    ∧ (metadata_record_effective i).map Prod.fst
        = ["file_name", "file_type", "shape", "columns", "modified_time", "loaded_at"]
    ∧ (metadata_record_effective i).lookup "is_geospatial" = none
    ∧ (metadata_record_effective i).lookup "crs" = none := by
  exact ⟨rfl, rfl, rfl, rfl⟩

/-- C5: the csv probing loop equals a first-match search over the six
(encoding, separator) pairs in the exact precedence order
{utf-8, latin-1} × {;, `,`, |}, accepting the first combination that parses
into strictly more than one column; when the search finds nothing the result
is `none`. -/
theorem read_csv_probe_order (parse : String → String → Option CsvDf) :
    read_csv parse = List.findSome? (csv_accept parse)
      [("utf-8", ";"), ("utf-8", ","), ("utf-8", "|"),
       ("latin-1", ";"), ("latin-1", ","), ("latin-1", "|")] := by
  have hstep : ∀ enc sep rest, try_seps parse enc (sep :: rest)
      = (match csv_accept parse (enc, sep) with
         | some df => some df
         | none => try_seps parse enc rest) := by
    intro enc sep rest
    simp only [try_seps, csv_accept]
    rcases parse enc sep with _ | df
    · rfl
    · by_cases h : df.ncols > 1 <;> simp [h]
  have hnil : ∀ enc, try_seps parse enc [] = none := fun _ => rfl
  rcases h1 : csv_accept parse ("utf-8", ";") with _ | d1 <;>
  rcases h2 : csv_accept parse ("utf-8", ",") with _ | d2 <;>
  rcases h3 : csv_accept parse ("utf-8", "|") with _ | d3 <;>
  rcases h4 : csv_accept parse ("latin-1", ";") with _ | d4 <;>
  rcases h5 : csv_accept parse ("latin-1", ",") with _ | d5 <;>
  rcases h6 : csv_accept parse ("latin-1", "|") with _ | d6 <;>
  simp [read_csv, try_encodings, csv_encodings, csv_seps, List.findSome?,
    hstep, hnil, h1, h2, h3, h4, h5, h6]

/-- C6 counterexample: for the mapping `{"a": [], "b": [1]}` the code skips
the empty list under `"a"` and flattens the list under `"b"`, while the
claim's rule ("flatten the first value that is a sequence") would flatten the
empty list under `"a"` — the two results differ. -/
theorem read_json_first_list_cex :
    read_json (fun _ => ⟨[], ""⟩) (.obj jsonDictEx)
      = ParsedDf.plain (.rows [JVal.num 1] (some "b"))
    ∧ json_dict_rows_spec jsonDictEx = PlainDf.rows [] (some "a")
    ∧ ParsedDf.plain (json_dict_rows_spec jsonDictEx)
        ≠ read_json (fun _ => ⟨[], ""⟩) (.obj jsonDictEx) := by
  refine ⟨rfl, rfl, ?_⟩
  intro h
  simp [read_json, json_dict_rows_spec, jsonDictEx, find_first_list_spec,
    is_feature_collection, dict_get, has_list_value, find_main_list] at h

/-- C6 amended: for a json mapping without the FeatureCollection
discriminator, the dispatcher scans the mapping's entries in insertion order
and flattens the first value that is a NON-EMPTY sequence; when no non-empty
sequence value exists (including when every sequence value is empty), the
whole mapping becomes a single-row dataset. -/
theorem read_json_dict_main_list (geoRead : JVal → GeoDataFrame)
    (fields : List (String × JVal))
    (hfc : is_feature_collection fields = false) :
    read_json geoRead (.obj fields)
      = (match find_main_list fields with
         | some (k, xs) => ParsedDf.plain (.rows xs (some k))
         | none => ParsedDf.plain (.single (.obj fields)))
    ∧ find_main_list fields
      = fields.findSome? (fun p =>
          match p.2 with
          | .arr xs => if xs.length > 0 then some (p.1, xs) else none
          | _ => none) := by
  refine ⟨?_, find_main_list_eq_findSome fields⟩
  by_cases hl : has_list_value fields
  · simp [read_json, hfc, hl]
  · have hn := find_main_list_none_of_no_list fields (by simpa using hl)
    simp [read_json, hfc, hl, hn]

/-- Witness for the amended C6 at a concrete mapping with one non-empty list
value. -/
theorem read_json_dict_main_list_witness :
    read_json (fun _ => ⟨[], ""⟩) (.obj [("items", JVal.arr [JVal.num 1, JVal.num 2])])
      = ParsedDf.plain (.rows [JVal.num 1, JVal.num 2] (some "items")) :=
  (read_json_dict_main_list (fun _ => ⟨[], ""⟩)
    [("items", JVal.arr [JVal.num 1, JVal.num 2])] (by decide)).1

/-- C7: a json mapping whose `'type'` entry equals `'FeatureCollection'` is
routed to the geographic parser (`gpd.read_file`); the result exposes a
coordinate reference system and never comes from the generic row-flattening
branch. -/
theorem read_json_feature_collection_routes (geoRead : JVal → GeoDataFrame)
    (fields : List (String × JVal))
    (h : is_feature_collection fields = true) :
    read_json geoRead (.obj fields) = ParsedDf.geo (geoRead (.obj fields))
    ∧ parsed_crs (read_json geoRead (.obj fields)) = some (geoRead (.obj fields)).crs
    ∧ ∀ p : PlainDf, read_json geoRead (.obj fields) ≠ ParsedDf.plain p := by
  have hr : read_json geoRead (.obj fields) = ParsedDf.geo (geoRead (.obj fields)) := by
    simp [read_json, h]
  refine ⟨hr, by rw [hr]; rfl, fun p hp => ?_⟩
  rw [hr] at hp
  exact ParsedDf.noConfusion hp

/-- Witness for C7 at a concrete FeatureCollection mapping. -/
theorem read_json_feature_collection_routes_witness :
    read_json (fun _ => ⟨[], "EPSG:4326"⟩)
        (.obj [("type", JVal.str "FeatureCollection"), ("features", JVal.arr [])])
      = ParsedDf.geo ⟨[], "EPSG:4326"⟩ :=
  (read_json_feature_collection_routes (fun _ => ⟨[], "EPSG:4326"⟩)
    [("type", JVal.str "FeatureCollection"), ("features", JVal.arr [])] (by decide)).1

/-- C8 counterexample: with default selector `1`, the requested sub-selections
`0` and `1` are distinct and parse distinct sheets, yet they produce the SAME
cache key (`0` is falsy, so the key falls back to the default) — so distinct
sub-selections do not get distinct cache entries, and the entry under key
`"f_1"` can hold the dataset parsed for sheet `0`. -/
theorem cache_key_truthiness_cex :
    cache_key (PySel.int 1) "f" (some (PySel.int 0))
      = cache_key (PySel.int 1) "f" (some (PySel.int 1))
    ∧ (some (PySel.int 0) : Option PySel) ≠ some (PySel.int 1)
    ∧ effective_parse_sel (PySel.int 1) (some (PySel.int 0))
        ≠ effective_parse_sel (PySel.int 1) (some (PySel.int 1)) := by
  exact ⟨by decide, by decide, by decide⟩

/-- C8 amended: the cache key is `f"{fileId}_{selector}"` where the requested
selector is used only when truthy, falling back to the instance default for a
`None`, `0`, or `""` request (while parsing falls back only for `None`); for
truthy requested selectors with distinct string renderings the keys are
distinct, and the parse honors the requested selector. -/
theorem cache_key_separates_truthy (defaultSel : PySel) (fileId : String)
    (s1 s2 : PySel) (h1 : pyTruthy s1 = true) (h2 : pyTruthy s2 = true)
    (h3 : selFString s1 ≠ selFString s2) :
    cache_key defaultSel fileId (some s1) ≠ cache_key defaultSel fileId (some s2)
    ∧ ∀ s, effective_parse_sel defaultSel (some s) = s := by
  refine ⟨?_, fun _ => rfl⟩
  simp only [cache_key, h1, h2, if_pos]
  intro h
  apply h3
  have hd := congrArg String.data h
  simp [String.data_append] at hd
  exact String.ext hd

/-- Witness for the amended C8: sheet titles `"A"` and `"B"` get distinct
cache keys. -/
theorem cache_key_separates_truthy_witness :
    cache_key (PySel.int 0) "f" (some (PySel.str "A"))
      ≠ cache_key (PySel.int 0) "f" (some (PySel.str "B")) :=
  (cache_key_separates_truthy (PySel.int 0) "f" (PySel.str "A") (PySel.str "B")
    (by decide) (by decide) (by decide)).1

end GDriveWarehouse

